import Mathlib

/-!
Verification of the rocFFT runtime-compilation core against its
natural-language specification.

Modelled source files:
* `library/src/device/generator/rtc_radix_functions/radix_4.h` —
  the radix-4 forward/inverse butterfly device functions.
* `library/src/rtc_chirp_kernel.cpp` — the chirp-kernel caller of the
  compile pipeline.
* `clients/bench/bench.cpp` — the benchmark driver's `main`.

The compile-cache and pipeline implementation (`rtc_cache`,
`cached_compile`) is not part of the visible sources; where a claim is
decided by that code it is modelled from the specification, and each such
definition says so in its doc comment.
-/

namespace RocFFT

/-- A complex value as the device code stores it: a pair of scalar
components named `x` (real part) and `y` (imaginary part), matching the
HIP `float2`/`double2` field names used by `radix_4.h`. -/
@[ext]
structure Cplx (α : Type) where
  x : α
  y : α
deriving DecidableEq, Repr

namespace Cplx

variable {α : Type}

instance [Add α] : Add (Cplx α) := ⟨fun a b => ⟨a.x + b.x, a.y + b.y⟩⟩

instance [Sub α] : Sub (Cplx α) := ⟨fun a b => ⟨a.x - b.x, a.y - b.y⟩⟩

instance [Neg α] : Neg (Cplx α) := ⟨fun a => ⟨-a.x, -a.y⟩⟩

/-- Complex multiplication (used only on the specification side, to state
the DFT formulas such as `x0 - I*x1 - x2 + I*x3`). -/
instance [Mul α] [Add α] [Sub α] : Mul (Cplx α) :=
  ⟨fun a b => ⟨a.x * b.x - a.y * b.y, a.x * b.y + a.y * b.x⟩⟩

/-- The imaginary unit. -/
def I [Zero α] [One α] : Cplx α := ⟨0, 1⟩

/-- Scalar times complex value, componentwise — the meaning of the device
code's `2.0 * (*R0)` on a `float2`/`double2`. -/
def scale [Mul α] (s : α) (z : Cplx α) : Cplx α := ⟨s * z.x, s * z.y⟩

@[simp] theorem add_def [Add α] (a b : Cplx α) :
    a + b = ⟨a.x + b.x, a.y + b.y⟩ := rfl

@[simp] theorem sub_def [Sub α] (a b : Cplx α) :
    a - b = ⟨a.x - b.x, a.y - b.y⟩ := rfl

@[simp] theorem neg_def [Neg α] (a : Cplx α) : -a = ⟨-a.x, -a.y⟩ := rfl

@[simp] theorem mul_def [Mul α] [Add α] [Sub α] (a b : Cplx α) :
    a * b = ⟨a.x * b.x - a.y * b.y, a.x * b.y + a.y * b.x⟩ := rfl

@[simp] theorem scale_def [Mul α] (s : α) (z : Cplx α) :
    scale s z = ⟨s * z.x, s * z.y⟩ := rfl

@[simp] theorem I_def [Zero α] [One α] : (I : Cplx α) = ⟨0, 1⟩ := rfl

end Cplx

/-- Forward radix-4 butterfly, translated statement by statement from
`FwdRad4B1` in `radix_4.h`.  The C++ function takes its four pointer
arguments in the order `(R0, R2, R1, R3)` and updates the pointed-to
values in place; here the four arguments are the initial contents of the
four registers (named as in the source) and the result quadruple lists
the final contents of the pointed-to slots in ARGUMENT order, i.e.
`(final *R0, final *R2, final *R1, final *R3)` — the k-th component is
what the k-th pointer argument's storage holds on return. -/
def FwdRad4B1 [Add α] [Sub α] [Neg α] [Mul α] [OfNat α 2] (R0 R2 R1 R3 : Cplx α) :
    Cplx α × Cplx α × Cplx α × Cplx α :=
  let R1 := R0 - R1
  let R0 := Cplx.scale 2 R0 - R1
  let R3 := R2 - R3
  let R2 := Cplx.scale 2 R2 - R3
  let R2 := R0 - R2
  let R0 := Cplx.scale 2 R0 - R2
  let R3 := R1 + Cplx.mk (-R3.y) R3.x
  let R1 := Cplx.scale 2 R1 - R3
  let res := R1
  let R1 := R2
  let R2 := res
  (R0, R2, R1, R3)

/-- Inverse radix-4 butterfly, translated statement by statement from
`InvRad4B1` in `radix_4.h`; same argument order and result convention as
`FwdRad4B1`.  It differs from the forward butterfly only in the rotation
applied to `*R3`: `T((*R3).y, -(*R3).x)` instead of
`T(-(*R3).y, (*R3).x)`. -/
def InvRad4B1 [Add α] [Sub α] [Neg α] [Mul α] [OfNat α 2] (R0 R2 R1 R3 : Cplx α) :
    Cplx α × Cplx α × Cplx α × Cplx α :=
  let R1 := R0 - R1
  let R0 := Cplx.scale 2 R0 - R1
  let R3 := R2 - R3
  let R2 := Cplx.scale 2 R2 - R3
  let R2 := R0 - R2
  let R0 := Cplx.scale 2 R0 - R2
  let R3 := R1 + Cplx.mk R3.y (-R3.x)
  let R1 := Cplx.scale 2 R1 - R3
  let res := R1
  let R1 := R2
  let R2 := res
  (R0, R2, R1, R3)

/-- Specification-side definition (from the spec's words, §4.1): one
radix-2 butterfly, combining two values into their sum and difference. -/
def rad2 [Add α] [Sub α] (a b : Cplx α) : Cplx α × Cplx α := (a + b, a - b)

/-- Specification-side definition (from the spec's words, §4.1): the
forward rotation — the complex pair `(x, y)` becomes `(-y, x)`. -/
def fwdRot [Neg α] (z : Cplx α) : Cplx α := ⟨-z.y, z.x⟩

/-- Specification-side definition (from the spec's words, §4.1): the
inverse rotation — the complex pair `(x, y)` becomes `(y, -x)`. -/
def invRot [Neg α] (z : Cplx α) : Cplx α := ⟨z.y, -z.x⟩

/-- Specification-side definition (from the spec's words, §4.1): a
radix-4 stage realised as a two-level radix-2 decomposition with a
twiddle rotation `rot` applied between the two levels.  The first level
takes radix-2 butterflies of the even-stride pairs `(x0, x2)` and
`(x1, x3)`; the rotation is applied to the second level's odd input; the
quadruple lists the outputs in natural order. -/
def twoStageRad4 [Add α] [Sub α] (rot : Cplx α → Cplx α) (x0 x1 x2 x3 : Cplx α) :
    Cplx α × Cplx α × Cplx α × Cplx α :=
  let p := rad2 x0 x2
  let q := rad2 x1 x3
  let r := rad2 p.1 q.1
  let s := rad2 p.2 (rot q.2)
  (r.1, s.2, r.2, s.1)

/-- A compile-cache key.  Modelled from the spec: the cache implementation
(`rtc_cache.cpp`, `RTCCache`) is not among the visible sources — only its
caller `rtc_chirp_kernel.cpp` is.  Per §3 the key is the tuple
(entry-point name, target architecture identifier, generator signature),
exactly the three values `cached_compile(kernel_name, gpu_arch, generator,
generator_sum())` receives from the visible caller. -/
structure CacheKey where
  kernel_name : String
  gpu_arch : String
  generator_sum : String
deriving DecidableEq, Repr

/-- The compile cache, a keyed blob store.  Modelled from the spec (§2,
§4.3): a persistent map from `CacheKey` to compiled binary blob, here an
association list whose byte sequences are strings. -/
def Cache : Type := List (CacheKey × String)

instance : DecidableEq Cache := by
  unfold Cache
  infer_instance

instance : Membership (CacheKey × String) Cache :=
  inferInstanceAs (Membership (CacheKey × String) (List (CacheKey × String)))

/-- The empty cache. -/
def Cache.empty : Cache := []

/-- Modelled from the spec (§4.3): `lookup(key) -> binary | miss` returns
the binary stored under the key, or `none` for a miss. -/
def Cache.lookup (c : Cache) (k : CacheKey) : Option String :=
  (List.find? (fun e => decide (e.1 = k)) c).map (fun e => e.2)

/-- Outcome of a `store` call, modelled from the spec (§4.3): a fresh
entry is written, a byte-identical re-store is a no-op, and a store of
divergent content under an existing key is rejected (logged as a logic
error), never silently overwritten. -/
inductive StoreOutcome where
  | stored
  | duplicate
  | rejected
deriving DecidableEq, Repr

/-- Modelled from the spec (§4.3): `store(key, binary)`.  Returns the new
cache state together with the outcome. -/
def Cache.store (c : Cache) (k : CacheKey) (b : String) : Cache × StoreOutcome :=
  match c.lookup k with
  | none => ((k, b) :: c, .stored)
  | some existing => if existing = b then (c, .duplicate) else (c, .rejected)

/-- Diagnostics-or-binary result of the external device compiler, and of
the pipeline itself.  Modelled from the spec (§6): the compiler is a black
box returning a binary blob or a structured failure with diagnostic text. -/
def CompileResult : Type := Except String String

/-- Modelled from the spec (§4.4): the RTC compile pipeline
`cached_compile(kernel_name, gpu_arch, generator, generator_sum)` whose
invocation is visible in `rtc_chirp_kernel.cpp`.  `generator` is the
caller-supplied deferred zero-argument callable producing source text and
`compiler` is the external device compiler.  Besides the result and the
new cache state, the model returns how many times the generator and the
compiler were invoked, so that laziness is observable. -/
def cached_compile (c : Cache) (kernel_name gpu_arch : String)
    (generator : Unit → String) (generator_sum : String)
    (compiler : String → String → CompileResult) :
    CompileResult × Cache × Nat × Nat :=
  let key : CacheKey := ⟨kernel_name, gpu_arch, generator_sum⟩
  match c.lookup key with
  | some bin => (.ok bin, c, 0, 0)
  | none =>
    let src := generator ()
    match compiler src gpu_arch with
    | .ok bin => (.ok bin, (c.store key bin).1, 1, 1)
    | .error diag => (.error diag, c, 1, 1)

/-- Numeric precision of a transform, from `rocfft_precision`. -/
inductive Precision where
  | single
  | double
  | half
deriving DecidableEq, Repr

/-- Kernel specification for the chirp family: per the spec (§3 and the
chirp call site in `rtc_chirp_kernel.cpp`), the chirp generator is a
function of the precision alone. -/
structure ChirpSpec where
  precision : Precision
deriving DecidableEq, Repr

/-- Spelling of a precision inside generated names. -/
def Precision.name : Precision → String
  | .single => "sp"
  | .double => "dp"
  | .half => "half"

/-- Modelled from the spec: `chirp_rtc_kernel_name` is declared in the
headers but defined outside the visible sources; per §3 the entry-point
name is deterministically derived from the kernel specification, for the
chirp family from its precision. -/
def chirp_rtc_kernel_name (precision : Precision) : String :=
  "rocfft_chirp_" ++ precision.name

/-- Modelled from the spec: `chirp_rtc` (the chirp-family source
generator body) is defined outside the visible sources; per §4.1 it is a
pure function of the kernel name and precision producing source text. -/
def chirp_rtc (kernel_name : String) (precision : Precision) : String :=
  "// " ++ kernel_name ++ "\n__global__ void " ++ kernel_name
    ++ "(scalar_type_" ++ precision.name ++ "* output, size_t N) \x7b \x7d\n"

/-- The chirp-family `generate(spec) -> (entry_point_name, source_text)`
step, as wired in `RTCKernelChirp::generate`: the entry-point name comes
from `chirp_rtc_kernel_name(precision)` and the deferred generator
callable captures the precision and calls `chirp_rtc(kernel_name,
precision)`. -/
def chirpGenerate (spec : ChirpSpec) : String × String :=
  let kernel_name := chirp_rtc_kernel_name spec.precision
  (kernel_name, chirp_rtc kernel_name spec.precision)

/-- Observable actions of the benchmark driver `clients/bench/bench.cpp`:
writes to standard output and the externally visible milestones of a
transform run (library initialization, plan creation, transform
execution). -/
inductive BenchEvent where
  | print (s : String)
  | rocfftSetup
  | createPlan
  | executeTransform
deriving DecidableEq, Repr

/-- The benchmark driver's command-line options after a successful
`boost::program_options` parse, restricted to the fields that steer the
control flow modelled here.  `token` is the default-constructed empty
string when `--token` is not supplied; `length` is `none` when
`--length` is absent (`vm.count("length") == 0`). -/
structure BenchOpts where
  help : Bool
  version : Bool
  ntrial : Int
  token : String
  length : Option (List Nat)
deriving DecidableEq, Repr

/-- Stand-in for the rendered `opdesc` option-description text.  The
source streams the same `opdesc` object both for `--help` and after the
missing-length message, so the model only relies on it being one fixed
text. -/
def benchHelpText : String := "rocfft-bench command line options"

/-- The `EXIT_SUCCESS` value returned by `main`. -/
def EXIT_SUCCESS : Int := 0

/-- The benchmark driver's `main` from `bench.cpp`, modelled from the
successful parse of the command line (line 106) up to the point where a
transform run begins.  Returns the list of emitted events and the exit
code.  Control flow follows the source in order: the `--help` early
return, the `--version` early return, the unconditional trial-count
message (`ntrial` has a default value, so `vm.count("ntrial")` always
holds), the `--token` branch with its parse-failure early return, and the
missing-`--length` early return.  The two continuations stand for the
code that runs when an FFT is actually set up: `restToken` for line 212
onward on the token path and `restLength` for line 150 onward on the
length path; `tokenParses` abstracts whether `params.from_token` throws.
Any library initialization, plan creation or transform execution can
occur only inside those continuations. -/
def benchMain (versionText : String) (tokenParses : String → Bool)
    (restToken restLength : BenchOpts → List BenchEvent × Int)
    (o : BenchOpts) : List BenchEvent × Int :=
  if o.help then
    ([.print benchHelpText], EXIT_SUCCESS)
  else if o.version then
    ([.print ("version " ++ versionText)], EXIT_SUCCESS)
  else
    let pre : List BenchEvent :=
      [.print ("Running profile with " ++ toString o.ntrial ++ " samples")]
    if o.token ≠ "" then
      let pre2 := pre ++ [.print ("Reading fft params from token:\n" ++ o.token)]
      if tokenParses o.token then
        let r := restToken o
        (pre2 ++ r.1, r.2)
      else
        (pre2 ++ [.print "Unable to parse token."], 1)
    else
      match o.length with
      | none =>
        (pre ++ [.print "Please specify transform length!", .print benchHelpText],
         EXIT_SUCCESS)
      | some _ =>
        let r := restLength o
        (pre ++ r.1, r.2)

end RocFFT

open RocFFT

/-- C1: for every 4-tuple of complex values under exact arithmetic,
`FwdRad4B1` called with pointers to `x0..x3` as its first through fourth
arguments leaves the 4-point forward DFT in natural order in those slots,
and `InvRad4B1` likewise leaves the unnormalized inverse DFT. -/
theorem fwdRad4B1_invRad4B1_dft (α : Type) [CommRing α] (x0 x1 x2 x3 : Cplx α) :
    FwdRad4B1 x0 x1 x2 x3 =
      (x0 + x1 + x2 + x3,
       x0 - Cplx.I * x1 - x2 + Cplx.I * x3,
       x0 - x1 + x2 - x3,
       x0 + Cplx.I * x1 - x2 - Cplx.I * x3) ∧
    InvRad4B1 x0 x1 x2 x3 =
      (x0 + x1 + x2 + x3,
       x0 + Cplx.I * x1 - x2 - Cplx.I * x3,
       x0 - x1 + x2 - x3,
       x0 - Cplx.I * x1 - x2 + Cplx.I * x3) := by
  constructor <;>
    · simp only [FwdRad4B1, InvRad4B1, Cplx.scale_def, Cplx.add_def, Cplx.sub_def,
        Cplx.neg_def, Cplx.mul_def, Cplx.I_def, Prod.mk.injEq, Cplx.mk.injEq]
      refine ⟨⟨by ring, by ring⟩, ⟨by ring, by ring⟩, ⟨by ring, by ring⟩, by ring, by ring⟩

/-- C2: both radix-4 butterflies are the two-level radix-2 decomposition
with a rotation between the levels; the rotation sign depends on the
direction: the forward butterfly rotates the pair `(x, y)` to `(-y, x)`
(a +90° rotation, multiplication by `i`) and the inverse butterfly
rotates it to `(y, -x)` (a −90° rotation, multiplication by `-i`). -/
theorem rad4B1_twoStage_decomposition (α : Type) [CommRing α] (x0 x1 x2 x3 : Cplx α) :
    FwdRad4B1 x0 x1 x2 x3 = twoStageRad4 fwdRot x0 x1 x2 x3 ∧
    InvRad4B1 x0 x1 x2 x3 = twoStageRad4 invRot x0 x1 x2 x3 ∧
    (∀ z : Cplx α, fwdRot z = ⟨-z.y, z.x⟩) ∧
    (∀ z : Cplx α, invRot z = ⟨z.y, -z.x⟩) ∧
    (∀ z : Cplx α, fwdRot z = Cplx.I * z) ∧
    (∀ z : Cplx α, invRot z = -Cplx.I * z) := by
  refine ⟨?_, ?_, fun z => rfl, fun z => rfl, fun z => ?_, fun z => ?_⟩ <;>
    · simp only [FwdRad4B1, InvRad4B1, twoStageRad4, rad2, fwdRot, invRot,
        Cplx.scale_def, Cplx.add_def, Cplx.sub_def, Cplx.neg_def, Cplx.mul_def,
        Cplx.I_def, Prod.mk.injEq, Cplx.mk.injEq]
      constructorm* _ ∧ _ <;> first | rfl | ring1 | ring_nf

/-- Helper: a successful `lookup` comes from an entry of the cache whose
key equals the looked-up key exactly. -/
theorem Cache.lookup_mem {c : Cache} {k : CacheKey} {b : String}
    (h : c.lookup k = some b) : (k, b) ∈ c := by
  unfold Cache.lookup at h
  obtain ⟨e, he, hb⟩ := Option.map_eq_some'.mp h
  have hp := List.find?_some he
  have hk : e.1 = k := of_decide_eq_true hp
  have hekb : e = (k, b) := by
    cases e
    simp_all
  exact hekb ▸ List.mem_of_find?_eq_some he

/-- Helper: equation for `store` on a missed key. -/
theorem Cache.store_miss {c : Cache} {k : CacheKey} (b : String)
    (h : c.lookup k = none) : c.store k b = ((k, b) :: c, .stored) := by
  unfold Cache.store
  rw [h]

/-- Helper: equation for `store` of byte-identical content. -/
theorem Cache.store_same {c : Cache} {k : CacheKey} {b : String}
    (h : c.lookup k = some b) : c.store k b = (c, .duplicate) := by
  unfold Cache.store
  rw [h]
  simp

/-- Helper: equation for `store` of divergent content. -/
theorem Cache.store_divergent {c : Cache} {k : CacheKey} {b existing : String}
    (h : c.lookup k = some existing) (hne : existing ≠ b) :
    c.store k b = (c, .rejected) := by
  unfold Cache.store
  rw [h]
  simp [hne]

/-- Helper: a freshly consed entry is found by its own key. -/
theorem Cache.lookup_cons_self (c : Cache) (k : CacheKey) (b : String) :
    Cache.lookup ((k, b) :: c) k = some b := by
  unfold Cache.lookup
  simp [List.find?]

/-- Helper: consing an entry for a different key does not change a
lookup. -/
theorem Cache.lookup_cons_ne (c : Cache) (k k2 : CacheKey) (b : String)
    (hne : k2 ≠ k) : Cache.lookup ((k, b) :: c) k2 = Cache.lookup c k2 := by
  unfold Cache.lookup
  simp only [List.find?]
  rw [decide_eq_false (by simpa using fun hk => hne hk.symm)]

/-- Helper: storing under one key does not change what any other key
looks up. -/
theorem Cache.lookup_store_ne (c : Cache) (k k2 : CacheKey) (b : String)
    (hne : k2 ≠ k) : (c.store k b).1.lookup k2 = c.lookup k2 := by
  cases h : c.lookup k with
  | none =>
    rw [Cache.store_miss b h]
    exact Cache.lookup_cons_ne c k k2 b hne
  | some existing =>
    by_cases hb : existing = b
    · subst hb
      rw [Cache.store_same h]
    · rw [Cache.store_divergent h hb]

/-- C3: a cache lookup on a key either returns a binary that was stored
under exactly that key — same entry-point name, architecture and
generator signature — or misses; storing never perturbs other keys; and
in particular an entry cached under one generator signature is a miss
when looked up with the same name and architecture but a different
signature. -/
theorem cache_lookup_key_exact :
    (∀ (c : Cache) (k : CacheKey) (b : String), c.lookup k = some b → (k, b) ∈ c) ∧
    (∀ (c : Cache) (k k2 : CacheKey) (b : String), k2 ≠ k →
        (c.store k b).1.lookup k2 = c.lookup k2) ∧
    (∀ (n a s s2 b : String), s2 ≠ s →
        ((Cache.empty.store ⟨n, a, s⟩ b).1).lookup ⟨n, a, s2⟩ = none) := by
  refine ⟨fun c k b h => Cache.lookup_mem h, Cache.lookup_store_ne, fun n a s s2 b hne => ?_⟩
  rw [Cache.lookup_store_ne Cache.empty ⟨n, a, s⟩ ⟨n, a, s2⟩ b (by simp [hne])]
  rfl

/-- Witness for C3 at concrete inputs: an entry stored under signature
`sig1` is a miss for the same kernel name and architecture under
`sig2`. -/
theorem cache_lookup_key_exact_witness :
    ((Cache.empty.store ⟨"chirp", "gfx90a", "sig1"⟩ "BIN").1).lookup
      ⟨"chirp", "gfx90a", "sig2"⟩ = none :=
  cache_lookup_key_exact.2.2 "chirp" "gfx90a" "sig1" "sig2" "BIN" (by decide)

/-- C4: the chirp-family kernel source generator is deterministic — two
invocations on field-wise-equal kernel specifications (for the chirp
family: equal precision) return the same entry-point name and the same
source text. -/
theorem chirpGenerate_deterministic (s1 s2 : ChirpSpec)
    (h : s1.precision = s2.precision) :
    chirpGenerate s1 = chirpGenerate s2 := by
  cases s1
  cases s2
  cases h
  rfl

/-- Witness for C4 at a concrete input. -/
theorem chirpGenerate_deterministic_witness :
    chirpGenerate ⟨Precision.single⟩ = chirpGenerate ⟨Precision.single⟩ :=
  chirpGenerate_deterministic ⟨Precision.single⟩ ⟨Precision.single⟩ rfl

/-- C5: when the pipeline's cache lookup hits, `cached_compile` returns
the cached binary with the cache unchanged, invoking the deferred
generator callable zero times and the external compiler zero times; and
the result is independent of which generator callable and which compiler
were supplied. -/
theorem cached_compile_hit_no_work (c : Cache) (kn ga gs bin : String)
    (h : c.lookup ⟨kn, ga, gs⟩ = some bin)
    (g1 g2 : Unit → String) (comp1 comp2 : String → String → CompileResult) :
    cached_compile c kn ga g1 gs comp1 = (.ok bin, c, 0, 0) ∧
    cached_compile c kn ga g1 gs comp1 = cached_compile c kn ga g2 gs comp2 := by
  simp only [cached_compile]
  rw [h]
  exact ⟨rfl, rfl⟩

/-- Witness for C5 at concrete inputs: after storing a binary, a hit
returns it with zero generator and compiler invocations, whatever the
generator and compiler are. -/
theorem cached_compile_hit_no_work_witness :
    cached_compile ((⟨"chirp", "gfx90a", "sig1"⟩, "BIN") :: Cache.empty)
        "chirp" "gfx90a" (fun _ => "src") "sig1" (fun _ _ => .error "unused")
      = (.ok "BIN", (⟨"chirp", "gfx90a", "sig1"⟩, "BIN") :: Cache.empty, 0, 0) :=
  (cached_compile_hit_no_work ((⟨"chirp", "gfx90a", "sig1"⟩, "BIN") :: Cache.empty)
    "chirp" "gfx90a" "sig1" "BIN" (by decide)
    (fun _ => "src") (fun _ => "other") (fun _ _ => .error "unused")
    (fun _ _ => .error "unused")).1

/-- C7: when the external compiler fails on a missed key,
`cached_compile` propagates a compilation error carrying the compiler's
diagnostics verbatim, leaves the cache unchanged, and a subsequent
request for the same key re-attempts generation (the generator runs
again — the failure was not cached) and compilation (a now-succeeding
compiler yields and stores a binary). -/
theorem cached_compile_failure_not_cached (c : Cache) (kn ga gs diag : String)
    (g : Unit → String) (comp : String → String → CompileResult)
    (hmiss : c.lookup ⟨kn, ga, gs⟩ = none)
    (hfail : comp (g ()) ga = .error diag) :
    cached_compile c kn ga g gs comp = (.error diag, c, 1, 1) ∧
    (∀ comp2 : String → String → CompileResult,
      (cached_compile c kn ga g gs comp2).2.2.1 = 1 ∧
      (∀ bin2, comp2 (g ()) ga = .ok bin2 →
        cached_compile c kn ga g gs comp2
          = (.ok bin2, (c.store ⟨kn, ga, gs⟩ bin2).1, 1, 1))) := by
  constructor
  · simp only [cached_compile]
    rw [hmiss]
    simp only [hfail]
  · intro comp2
    constructor
    · simp only [cached_compile]
      rw [hmiss]
      cases comp2 (g ()) ga <;> rfl
    · intro bin2 hok
      simp only [cached_compile]
      rw [hmiss]
      simp only [hok]

/-- Witness for C7 at concrete inputs: a failing compiler's diagnostics
are propagated, the cache stays empty, and a retry with a working
compiler succeeds and stores the binary. -/
theorem cached_compile_failure_not_cached_witness :
    cached_compile Cache.empty "chirp" "gfx90a" (fun _ => "src") "sig1"
        (fun _ _ => .error "syntax error") = (.error "syntax error", Cache.empty, 1, 1) ∧
    cached_compile Cache.empty "chirp" "gfx90a" (fun _ => "src") "sig1"
        (fun _ _ => .ok "BIN")
      = (.ok "BIN", (Cache.empty.store ⟨"chirp", "gfx90a", "sig1"⟩ "BIN").1, 1, 1) := by
  have h := cached_compile_failure_not_cached Cache.empty "chirp" "gfx90a" "sig1"
    "syntax error" (fun _ => "src") (fun _ _ => .error "syntax error") rfl rfl
  exact ⟨h.1, (h.2 (fun _ _ => .ok "BIN")).2 "BIN" rfl⟩

/-- C8: the cache store is idempotent — storing the same binary under the
same key twice leaves the cache in the state one store produces — and a
store of divergent content under an occupied key is rejected, leaving the
existing entry untouched rather than silently overwriting it. -/
theorem cache_store_idempotent_no_overwrite :
    (∀ (c : Cache) (k : CacheKey) (b : String),
        ((c.store k b).1.store k b).1 = (c.store k b).1) ∧
    (∀ (c : Cache) (k : CacheKey) (b existing : String),
        c.lookup k = some existing → existing ≠ b →
        (c.store k b).1 = c ∧ (c.store k b).2 = .rejected) := by
  constructor
  · intro c k b
    cases h : c.lookup k with
    | none =>
      rw [Cache.store_miss b h]
      rw [Cache.store_same (Cache.lookup_cons_self c k b)]
    | some existing =>
      by_cases hb : existing = b
      · subst hb
        rw [Cache.store_same h, Cache.store_same h]
      · rw [Cache.store_divergent h hb, Cache.store_divergent h hb]
  · intro c k b existing h hne
    rw [Cache.store_divergent h hne]
    exact ⟨rfl, rfl⟩

/-- Witness for C8 at concrete inputs: re-storing identical content is a
no-op and divergent content under an occupied key is rejected. -/
theorem cache_store_idempotent_no_overwrite_witness :
    (Cache.store ((⟨"chirp", "gfx90a", "sig1"⟩, "BIN") :: Cache.empty)
        ⟨"chirp", "gfx90a", "sig1"⟩ "OTHER").1
      = (⟨"chirp", "gfx90a", "sig1"⟩, "BIN") :: Cache.empty ∧
    (Cache.store ((⟨"chirp", "gfx90a", "sig1"⟩, "BIN") :: Cache.empty)
        ⟨"chirp", "gfx90a", "sig1"⟩ "OTHER").2 = StoreOutcome.rejected :=
  cache_store_idempotent_no_overwrite.2
    ((⟨"chirp", "gfx90a", "sig1"⟩, "BIN") :: Cache.empty)
    ⟨"chirp", "gfx90a", "sig1"⟩ "OTHER" "BIN" (by decide) (by decide)

/-- C9: applying `FwdRad4B1` and then `InvRad4B1` to the same four
storage slots, with the pointers passed in the same argument order both
times, leaves exactly 4 times the original value in every slot: the
inverse butterfly is the unnormalized inverse of the forward one. -/
theorem invRad4B1_fwdRad4B1_eq_four_smul (α : Type) [CommRing α] (x0 x1 x2 x3 : Cplx α) :
    (fun t : Cplx α × Cplx α × Cplx α × Cplx α =>
        InvRad4B1 t.1 t.2.1 t.2.2.1 t.2.2.2) (FwdRad4B1 x0 x1 x2 x3) =
      (Cplx.scale 4 x0, Cplx.scale 4 x1, Cplx.scale 4 x2, Cplx.scale 4 x3) := by
  simp only [FwdRad4B1, InvRad4B1, Cplx.scale_def, Cplx.add_def, Cplx.sub_def,
    Cplx.neg_def, Prod.mk.injEq, Cplx.mk.injEq]
  refine ⟨⟨by ring, by ring⟩, ⟨by ring, by ring⟩, ⟨by ring, by ring⟩, by ring, by ring⟩

/-- C10 counterexample: the claim quantifies over every invocation with
no `--token` and no `--length`, but an invocation that additionally
passes `--help` returns at the help early-exit: it prints only the help
text and never prints "Please specify transform length!". -/
theorem bench_missing_length_counterexample :
    (benchMain "1.0" (fun _ => true) (fun _ => ([], 0)) (fun _ => ([], 0))
        ⟨true, false, 1, "", none⟩).1 = [.print benchHelpText] ∧
    BenchEvent.print "Please specify transform length!" ∉
      (benchMain "1.0" (fun _ => true) (fun _ => ([], 0)) (fun _ => ([], 0))
        ⟨true, false, 1, "", none⟩).1 := by
  constructor
  · rfl
  · decide

/-- C10 (amended): for every invocation of the benchmark driver in which
no `--token` string is supplied, the `--length` option is absent, and
neither `--help` nor `--version` is given, `main` prints "Please specify
transform length!" followed by the help text and returns `EXIT_SUCCESS`,
and no library initialization, plan creation or transform execution
occurs — whatever the rest of the program would have done. -/
theorem bench_missing_length_message (versionText : String)
    (tokenParses : String → Bool)
    (restToken restLength : BenchOpts → List BenchEvent × Int)
    (o : BenchOpts) (hh : o.help = false) (hv : o.version = false)
    (ht : o.token = "") (hl : o.length = none) :
    benchMain versionText tokenParses restToken restLength o
      = ([.print ("Running profile with " ++ toString o.ntrial ++ " samples"),
          .print "Please specify transform length!", .print benchHelpText],
         EXIT_SUCCESS) ∧
    (∀ e ∈ (benchMain versionText tokenParses restToken restLength o).1,
        e ≠ BenchEvent.rocfftSetup ∧ e ≠ BenchEvent.createPlan ∧
        e ≠ BenchEvent.executeTransform) := by
  have hmain : benchMain versionText tokenParses restToken restLength o
      = ([.print ("Running profile with " ++ toString o.ntrial ++ " samples"),
          .print "Please specify transform length!", .print benchHelpText],
         EXIT_SUCCESS) := by
    unfold benchMain
    rw [hh, hv, ht, hl]
    rfl
  refine ⟨hmain, ?_⟩
  rw [hmain]
  intro e he
  simp only [List.mem_cons, List.not_mem_nil, or_false] at he
  rcases he with rfl | rfl | rfl <;> exact ⟨by simp, by simp, by simp⟩

/-- Witness for the amended C10 at concrete inputs, with continuations
that would perform a full transform run if they were ever reached. -/
theorem bench_missing_length_message_witness :
    benchMain "1.0" (fun _ => true)
        (fun _ => ([BenchEvent.rocfftSetup, BenchEvent.createPlan,
                    BenchEvent.executeTransform], 0))
        (fun _ => ([BenchEvent.rocfftSetup, BenchEvent.createPlan,
                    BenchEvent.executeTransform], 0))
        ⟨false, false, 1, "", none⟩
      = ([.print "Running profile with 1 samples",
          .print "Please specify transform length!", .print benchHelpText],
         EXIT_SUCCESS) :=
  ((bench_missing_length_message "1.0" (fun _ => true)
      (fun _ => ([BenchEvent.rocfftSetup, BenchEvent.createPlan,
                  BenchEvent.executeTransform], 0))
      (fun _ => ([BenchEvent.rocfftSetup, BenchEvent.createPlan,
                  BenchEvent.executeTransform], 0))
      ⟨false, false, 1, "", none⟩ rfl rfl rfl rfl).1).trans (by rfl)
